import Mathlib

/-!
Verification of the AVS Admin Panel subscription/usage core.

The repository is a React frontend plus deployment scripts; the backend
(FastAPI subscription lifecycle and usage ledger) is referenced by the
frontend API client but its implementation is not part of the source tree
here.  Frontend functions (`formatDuration`, `getStatusLabel`, the
authentication context) are embedded directly from the TypeScript source;
the backend operations (`createSubscription`, `renewSubscription`,
`cancelSubscription`, `recordCallStart`, `updateCallStatus`, `isExpired`,
`usagePercentage`) are modelled from the specification, as noted on each
definition.
-/

/-- Plan record, fields as in the frontend `Plan` interface
(`price`, `duration_days`, `max_calls`, `max_minutes`, `is_active`);
a cap of 0 means unlimited. -/
structure Plan where
  id : Nat
  name : String
  price : Nat
  duration_days : Nat
  max_calls : Nat
  max_minutes : Nat
  is_active : Bool
deriving DecidableEq, Repr

/-- Payment status enum of a subscription (frontend shows
completed / pending / failed). -/
inductive PaymentStatus where
  | pending
  | completed
  | failed
deriving DecidableEq, Repr

/-- Subscription record, fields as in the frontend `Subscription`
interface; the referenced plan's data is inlined as `plan`. -/
structure Subscription where
  id : Nat
  user_id : Nat
  plan : Plan
  start_date : Nat
  end_date : Nat
  is_active : Bool
  payment_status : PaymentStatus
  payment_amount : Nat
  payment_method : String
deriving DecidableEq, Repr

/-- Invoice status enum (pending / paid / overdue). -/
inductive InvoiceStatus where
  | pending
  | paid
  | overdue
deriving DecidableEq, Repr

/-- Invoice record, fields as in the frontend `Invoice` interface. -/
structure Invoice where
  subscription_id : Nat
  amount : Nat
  status : InvoiceStatus
  due_date : Nat
  payment_date : Option Nat
deriving DecidableEq, Repr

/-- Call status enum of a usage record
(initiated / connected / completed / failed). -/
inductive CallStatus where
  | initiated
  | connected
  | completed
  | failed
deriving DecidableEq, Repr

/-- Usage record, fields as in the frontend `UsageRecord` interface;
`subscription_id` is nullable, `duration` is in seconds. -/
structure UsageRecord where
  id : Nat
  user_id : Nat
  subscription_id : Option Nat
  call_id : String
  start_time : Nat
  end_time : Option Nat
  duration : Option Nat
  status : CallStatus
  caller_number : String
  destination_number : String
  call_type : String
deriving DecidableEq, Repr

/-- The error kinds of the spec's error-handling design. -/
inductive AppError where
  | ConflictError
  | NotFoundError
  | LimitExceededError
  | InvalidStateTransitionError
deriving DecidableEq, Repr

/-- Payment data passed to create/renew (amount and method). -/
structure Payment where
  amount : Nat
  method : String
deriving DecidableEq, Repr

/-- Call metadata passed to `recordCallStart`. -/
structure CallMeta where
  call_id : String
  caller_number : String
  destination_number : String
  call_type : String
deriving DecidableEq, Repr

/-- The relational store: subscriptions, invoices, usage records,
plus a fresh-id counter. -/
structure SysState where
  subs : List Subscription
  invoices : List Invoice
  usage : List UsageRecord
  nextId : Nat
deriving DecidableEq, Repr

/-- The initial, empty store. -/
def emptyState : SysState := ⟨[], [], [], 0⟩

/-! ## Frontend functions embedded from the TypeScript source -/

/-- From `Usage` page (src/unnamed/part_001, formatDuration):
`if (!seconds) return '0s'; const minutes = Math.floor(seconds / 60);
const remainingSeconds = seconds % 60;
return minutes > 0 ? `<minutes>m <remainingSeconds>s` : `<remainingSeconds>s`;`
A missing (`undefined`) argument is `none`; `!seconds` is true for
`undefined` and `0`. -/
def formatDuration : Option Nat → String
  | none => "0s"
  | some seconds =>
      if seconds = 0 then "0s"
      else
        let minutes := seconds / 60
        let remainingSeconds := seconds % 60
        if minutes > 0 then
          toString minutes ++ "m " ++ toString remainingSeconds ++ "s"
        else
          toString remainingSeconds ++ "s"

/-- Milliseconds per day, the divisor `1000 * 60 * 60 * 24` used by
`getStatusLabel` in Subscriptions.tsx. -/
def msPerDay : Int := 1000 * 60 * 60 * 24

/-- `Math.ceil((endDate - now) / msPerDay)` over exact integers:
the ceiling of the rational quotient, via floor division of the
negation. -/
def daysUntilExpiry (endDate now : Int) : Int :=
  -(Int.fdiv (-(endDate - now)) msPerDay)

/-- From Subscriptions.tsx `getStatusLabel` (lines 151-160): label a
subscription given its active flag and end date (times in ms). -/
def getStatusLabel (isActive : Bool) (endDate now : Int) : String :=
  if !isActive then "Cancelled"
  else if daysUntilExpiry endDate now ≤ 0 then "Expired"
  else if daysUntilExpiry endDate now ≤ 7 then "Expiring Soon"
  else "Active"

/-- User record as in the frontend `User` interface (AuthContext.tsx). -/
structure User where
  id : Nat
  email : String
  full_name : String
  is_active : Bool
  is_superuser : Bool
  created_at : String
  updated_at : String
deriving DecidableEq, Repr

/-- `Partial<User>`: every field optional, as accepted by
`updateUser(userData: Partial<User>)`. -/
structure UserPatch where
  id : Option Nat := none
  email : Option String := none
  full_name : Option String := none
  is_active : Option Bool := none
  is_superuser : Option Bool := none
  created_at : Option String := none
  updated_at : Option String := none
deriving DecidableEq, Repr

/-- The object spread `{ ...user, ...userData }`: fields present in the
patch override, all others are taken from `user`. -/
def applyPatch (u : User) (p : UserPatch) : User where
  id := p.id.getD u.id
  email := p.email.getD u.email
  full_name := p.full_name.getD u.full_name
  is_active := p.is_active.getD u.is_active
  is_superuser := p.is_superuser.getD u.is_superuser
  created_at := p.created_at.getD u.created_at
  updated_at := p.updated_at.getD u.updated_at

/-- State held by `AuthProvider` (AuthContext.tsx): the `user` and
`loading` React state cells. -/
structure AuthState where
  user : Option User
  loading : Bool
deriving DecidableEq, Repr

/-- `const isAuthenticated = !!user` (AuthContext.tsx line 43). -/
def isAuthenticated (st : AuthState) : Bool :=
  st.user.isSome

/-- `logout` (AuthContext.tsx lines 90-93): removes the token cookie
(external) and does `setUser(null)`. -/
def logout (st : AuthState) : AuthState :=
  { st with user := none }

/-- `updateUser` (AuthContext.tsx lines 95-99):
`if (user) setUser({ ...user, ...userData })`. -/
def updateUser (st : AuthState) (p : UserPatch) : AuthState :=
  match st.user with
  | none => st
  | some u => { st with user := some (applyPatch u p) }

/-! ## Backend operations, modelled from the spec

The backend implementation is not part of this source tree (only its
REST client, deployment scripts and README are); each operation below is
modelled from the specification's component design. -/

/-- Replace the first element satisfying `p` by its image under `f`,
leaving everything else in place (the effect of an SQL update of the
first matching row). -/
def updateFirst (p : α → Bool) (f : α → α) : List α → List α
  | [] => []
  | x :: xs => if p x then f x :: xs else x :: updateFirst p f xs

/-- Whether `u` already has a subscription with `active = true`. -/
def hasActiveSubscription (st : SysState) (u : Nat) : Bool :=
  st.subs.any (fun s => s.user_id == u && s.is_active)

/-- The user's active subscription, when there is one. -/
def findActiveSubscription (st : SysState) (u : Nat) : Option Subscription :=
  st.subs.find? (fun s => s.user_id == u && s.is_active)

/-- Modelled from the spec: `create(user, plan, payment)` of the
subscription lifecycle (backend not in the source tree).  Fails with
ConflictError if the user already has an active subscription; on success
sets start_date = now, end_date = now + plan.duration,
payment_status = completed, active = true, and emits an Invoice with
status = paid. -/
def createSubscription (st : SysState) (u : Nat) (plan : Plan)
    (payment : Payment) (now : Nat) : Except AppError SysState :=
  if hasActiveSubscription st u then
    .error .ConflictError
  else
    let sub : Subscription :=
      { id := st.nextId, user_id := u, plan := plan, start_date := now,
        end_date := now + plan.duration_days, is_active := true,
        payment_status := .completed, payment_amount := payment.amount,
        payment_method := payment.method }
    let inv : Invoice :=
      { subscription_id := st.nextId, amount := payment.amount,
        status := .paid, due_date := now, payment_date := some now }
    .ok { st with subs := st.subs ++ [sub],
                  invoices := st.invoices ++ [inv],
                  nextId := st.nextId + 1 }

/-- The end date written by a renewal: plan duration counted from the
later of `now` and the current end date. -/
def renewedEndDate (s : Subscription) (now : Nat) : Nat :=
  max now s.end_date + s.plan.duration_days

/-- Modelled from the spec: `renew(subscription, payment)` of the
subscription lifecycle (backend not in the source tree).  Fails with
NotFoundError if the subscription is inactive or not found; otherwise
extends end_date by plan.duration from the later of (now, current
end_date) and emits a new Invoice. -/
def renewSubscription (st : SysState) (sid : Nat) (payment : Payment)
    (now : Nat) : Except AppError SysState :=
  match st.subs.find? (fun s => s.id == sid && s.is_active) with
  | none => .error .NotFoundError
  | some _ =>
      let inv : Invoice :=
        { subscription_id := sid, amount := payment.amount,
          status := .paid, due_date := now, payment_date := some now }
      .ok { st with
            subs := updateFirst (fun s => s.id == sid && s.is_active)
              (fun s => { s with end_date := renewedEndDate s now,
                                 payment_status := .completed,
                                 payment_amount := payment.amount,
                                 payment_method := payment.method })
              st.subs,
            invoices := st.invoices ++ [inv] }

/-- Modelled from the spec: `cancel(subscription)` of the subscription
lifecycle (backend not in the source tree).  Idempotent; sets
active = false on the matching subscription; does not alter end_date or
any other field. -/
def cancelSubscription (st : SysState) (sid : Nat) : SysState :=
  { st with subs := st.subs.map (fun s =>
      if s.id == sid then { s with is_active := false } else s) }

/-- Modelled from the spec: `isExpired(subscription, now)`, a pure
function, true if now > end_date (backend not in the source tree). -/
def isExpired (s : Subscription) (now : Nat) : Bool :=
  decide (s.end_date < now)

/-- Calls consumed against subscription `sid`: the number of usage
records charged to it. -/
def calls_used (st : SysState) (sid : Nat) : Nat :=
  st.usage.countP (fun r => r.subscription_id == some sid)

/-- Minutes consumed against subscription `sid`: total recorded duration
in seconds, divided by 60. -/
def minutes_used (st : SysState) (sid : Nat) : Nat :=
  (st.usage.filter (fun r => r.subscription_id == some sid)).foldl
    (fun a r => a + r.duration.getD 0) 0 / 60

/-- A consumption figure meets or exceeds a cap; a cap of 0 means
unlimited and is never exceeded. -/
def overCap (used cap : Nat) : Bool :=
  cap != 0 && decide (cap ≤ used)

/-- Modelled from the spec: `recordCallStart(user, callMeta)` of the
usage ledger (backend not in the source tree).  Creates a UsageRecord
with status = initiated; fails with LimitExceededError if the user's
active subscription's consumed calls or minutes meet or exceed the
plan's caps (caps of 0 mean unlimited).  Without an active subscription
the record's subscription reference is null (the data model makes it
nullable) and no cap applies. -/
def recordCallStart (st : SysState) (u : Nat) (meta : CallMeta)
    (now : Nat) : Except AppError SysState :=
  let mkRecord (sid : Option Nat) : UsageRecord :=
    { id := st.nextId, user_id := u, subscription_id := sid,
      call_id := meta.call_id, start_time := now, end_time := none,
      duration := none, status := .initiated,
      caller_number := meta.caller_number,
      destination_number := meta.destination_number,
      call_type := meta.call_type }
  match findActiveSubscription st u with
  | none =>
      .ok { st with usage := st.usage ++ [mkRecord none],
                    nextId := st.nextId + 1 }
  | some s =>
      if overCap (calls_used st s.id) s.plan.max_calls
          || overCap (minutes_used st s.id) s.plan.max_minutes then
        .error .LimitExceededError
      else
        .ok { st with usage := st.usage ++ [mkRecord (some s.id)],
                      nextId := st.nextId + 1 }

/-- Modelled from the spec: the UsageRecord state machine.  Permitted
transitions: initiated → connected, initiated → failed,
connected → completed, connected → failed; completed and failed are
terminal. -/
def allowedTransition : CallStatus → CallStatus → Bool
  | .initiated, .connected => true
  | .initiated, .failed => true
  | .connected, .completed => true
  | .connected, .failed => true
  | _, _ => false

/-- Whether a call status is terminal (completed or failed). -/
def isTerminal : CallStatus → Bool
  | .completed => true
  | .failed => true
  | _ => false

/-- Modelled from the spec: the status-changing update of a UsageRecord
(the backend's call-event handling is not in the source tree).  Locates
the record by call id; fails with NotFoundError if absent, and with
InvalidStateTransitionError if the state machine does not permit the
requested change; a terminal status also sets end_time and
duration = end_time - start_time. -/
def updateCallStatus (st : SysState) (callId : String) (endTime : Nat)
    (newStatus : CallStatus) : Except AppError SysState :=
  match st.usage.find? (fun r => r.call_id == callId) with
  | none => .error .NotFoundError
  | some r =>
      let setStatus (x : UsageRecord) : UsageRecord :=
        if isTerminal newStatus then
          { x with status := newStatus, end_time := some endTime,
                   duration := some (endTime - x.start_time) }
        else
          { x with status := newStatus }
      if allowedTransition r.status newStatus then
        .ok { st with
              usage := updateFirst (fun x => x.call_id == callId)
                setStatus st.usage }
      else
        .error .InvalidStateTransitionError

/-- Modelled from the spec: `usagePercentage(subscription)` of the usage
ledger (backend not in the source tree).  The larger of the two
consumption ratios as a percentage; a ratio whose cap is 0 (unlimited)
is ignored, and the result is 0 when both caps are 0. -/
def usagePercentage (st : SysState) (s : Subscription) : ℚ :=
  let callPct : ℚ :=
    if s.plan.max_calls = 0 then 0
    else (calls_used st s.id : ℚ) * 100 / (s.plan.max_calls : ℚ)
  let minutePct : ℚ :=
    if s.plan.max_minutes = 0 then 0
    else (minutes_used st s.id : ℚ) * 100 / (s.plan.max_minutes : ℚ)
  max callPct minutePct

/-! ## Reachability and the one-active-subscription invariant -/

/-- States reachable from the empty store by the lifecycle and ledger
operations (an operation that fails leaves the state unchanged). -/
inductive Reachable : SysState → Prop where
  | init : Reachable emptyState
  | create {st st' : SysState} (u : Nat) (plan : Plan) (pay : Payment)
      (now : Nat) : Reachable st →
      createSubscription st u plan pay now = .ok st' → Reachable st'
  | renew {st st' : SysState} (sid : Nat) (pay : Payment) (now : Nat) :
      Reachable st →
      renewSubscription st sid pay now = .ok st' → Reachable st'
  | cancel {st : SysState} (sid : Nat) : Reachable st →
      Reachable (cancelSubscription st sid)
  | callStart {st st' : SysState} (u : Nat) (meta : CallMeta) (now : Nat) :
      Reachable st →
      recordCallStart st u meta now = .ok st' → Reachable st'
  | callStatus {st st' : SysState} (cid : String) (t : Nat)
      (b : CallStatus) : Reachable st →
      updateCallStatus st cid t b = .ok st' → Reachable st'

/-- At most one subscription per user carries `active = true`. -/
def UniqueActive (st : SysState) : Prop :=
  ∀ u : Nat, st.subs.countP (fun s => s.user_id == u && s.is_active) ≤ 1

/-! ## Sample data for concrete evaluations -/

/-- A sample plan: 30 days, 25 calls, 500 minutes. -/
def samplePlan : Plan := ⟨1, "Basic", 100, 30, 25, 500, true⟩

/-- A sample payment. -/
def samplePayment : Payment := ⟨100, "credit_card"⟩

/-- The subscription produced by creating `samplePlan` for user 7 at
time 5 in the empty store. -/
def sampleSubscription : Subscription :=
  ⟨0, 7, samplePlan, 5, 35, true, .completed, 100, "credit_card"⟩

/-- Sample call metadata. -/
def sampleMeta : CallMeta := ⟨"call-1", "+100", "+200", "outbound"⟩

/-- The store after creating `sampleSubscription` in the empty store. -/
def createdState : SysState :=
  ⟨[sampleSubscription], [⟨0, 100, .paid, 5, some 5⟩], [], 1⟩

/-- A plan capped at a single call (minutes unlimited). -/
def cappedPlan : Plan := ⟨2, "Capped", 50, 30, 1, 0, true⟩

/-- An active subscription to `cappedPlan` for user 7. -/
def cappedSubscription : Subscription :=
  ⟨0, 7, cappedPlan, 0, 30, true, .completed, 50, "credit_card"⟩

/-- A usage record already charged to `cappedSubscription`. -/
def usedRecord : UsageRecord :=
  ⟨1, 7, some 0, "c1", 0, none, none, .initiated, "+100", "+200", "outbound"⟩

/-- A store in which user 7's capped subscription has used its one
allowed call. -/
def cappedState : SysState := ⟨[cappedSubscription], [], [usedRecord], 2⟩

/-- A usage record whose call already completed (terminal status). -/
def closedRecord : UsageRecord :=
  ⟨1, 7, some 0, "c2", 0, some 10, some 10, .completed, "+100", "+200", "inbound"⟩

/-- A store holding only `closedRecord`. -/
def closedState : SysState := ⟨[], [], [closedRecord], 2⟩

/-- A sample authenticated-user record. -/
def sampleUser : User :=
  ⟨7, "u@example.com", "User Seven", true, false, "2024-01-01", "2024-01-02"⟩

/-- A sample patch that only changes the email. -/
def samplePatch : UserPatch := { email := some "new@example.com" }

/-! ## Theorems -/

/-- Claim C10: `formatDuration` returns "0s" for an undefined or zero
seconds input; for a positive integer below 60 it returns the seconds
followed by "s"; from 60 on it returns minutes, "m ", the remaining
seconds, and "s". -/
theorem claim_C10_formatDuration :
    (formatDuration none = "0s" ∧ formatDuration (some 0) = "0s")
    ∧ (∀ s : Nat, 0 < s → s < 60 →
        formatDuration (some s) = toString s ++ "s")
    ∧ (∀ s : Nat, 60 ≤ s →
        formatDuration (some s) =
          toString (s / 60) ++ "m " ++ toString (s % 60) ++ "s") := by
  refine ⟨⟨rfl, rfl⟩, ?_, ?_⟩
  · intro s hs h60
    have h0 : ¬s = 0 := by omega
    have hdiv : s / 60 = 0 := Nat.div_eq_of_lt h60
    have hmod : s % 60 = s := Nat.mod_eq_of_lt h60
    simp [formatDuration, h0, hdiv, hmod]
  · intro s hs
    have h0 : ¬s = 0 := by omega
    have hdiv : 0 < s / 60 := Nat.div_pos hs (by norm_num)
    simp [formatDuration, h0, hdiv]

/-- Witness for C10 at concrete inputs 59 and 125. -/
theorem claim_C10_formatDuration_witness :
    formatDuration (some 59) = toString 59 ++ "s"
    ∧ formatDuration (some 125) =
        toString (125 / 60) ++ "m " ++ toString (125 % 60) ++ "s" :=
  ⟨claim_C10_formatDuration.2.1 59 (by decide) (by decide),
   claim_C10_formatDuration.2.2 125 (by decide)⟩

/-- Claim C9: `isAuthenticated` is true exactly when `user` is non-null;
`logout` nulls the user (so `isAuthenticated` becomes false); and
`updateUser` is a no-op on a null user and otherwise overrides exactly
the supplied fields, leaving every other field unchanged. -/
theorem claim_C9_authContext (st : AuthState) (p : UserPatch) :
    (isAuthenticated st = true ↔ st.user ≠ none)
    ∧ (logout st).user = none
    ∧ isAuthenticated (logout st) = false
    ∧ (st.user = none → updateUser st p = st)
    ∧ (∀ u : User, st.user = some u →
        (updateUser st p).user = some (applyPatch u p)
        ∧ (updateUser st p).loading = st.loading
        ∧ (p.id = none → (applyPatch u p).id = u.id)
        ∧ (p.email = none → (applyPatch u p).email = u.email)
        ∧ (p.full_name = none → (applyPatch u p).full_name = u.full_name)
        ∧ (p.is_active = none → (applyPatch u p).is_active = u.is_active)
        ∧ (p.is_superuser = none →
            (applyPatch u p).is_superuser = u.is_superuser)
        ∧ (p.created_at = none → (applyPatch u p).created_at = u.created_at)
        ∧ (p.updated_at = none → (applyPatch u p).updated_at = u.updated_at)
        ∧ (∀ v, p.id = some v → (applyPatch u p).id = v)
        ∧ (∀ v, p.email = some v → (applyPatch u p).email = v)
        ∧ (∀ v, p.full_name = some v → (applyPatch u p).full_name = v)
        ∧ (∀ v, p.is_active = some v → (applyPatch u p).is_active = v)
        ∧ (∀ v, p.is_superuser = some v → (applyPatch u p).is_superuser = v)
        ∧ (∀ v, p.created_at = some v → (applyPatch u p).created_at = v)
        ∧ (∀ v, p.updated_at = some v → (applyPatch u p).updated_at = v)) := by
  refine ⟨?_, rfl, rfl, ?_, ?_⟩
  · cases h : st.user <;> simp [isAuthenticated, h]
  · intro h; simp [updateUser, h]
  · intro u hu
    refine ⟨by simp [updateUser, hu], by simp [updateUser, hu],
      ?_, ?_, ?_, ?_, ?_, ?_, ?_, ?_, ?_, ?_, ?_, ?_, ?_, ?_⟩
      <;> intro v <;> first
        | (intro hv; simp [applyPatch, hv])
        | (simp [applyPatch, v])

/-- Witness for C9 at a concrete state and patch. -/
theorem claim_C9_authContext_witness :
    (updateUser ⟨some sampleUser, false⟩ samplePatch).user
      = some (applyPatch sampleUser samplePatch)
    ∧ (applyPatch sampleUser samplePatch).full_name = sampleUser.full_name
    ∧ (applyPatch sampleUser samplePatch).email = "new@example.com" :=
  ⟨((claim_C9_authContext ⟨some sampleUser, false⟩ samplePatch).2.2.2.2
      sampleUser rfl).1,
   ((claim_C9_authContext ⟨some sampleUser, false⟩ samplePatch).2.2.2.2
      sampleUser rfl).2.2.2.2.1 rfl,
   ((claim_C9_authContext ⟨some sampleUser, false⟩ samplePatch).2.2.2.2
      sampleUser rfl).2.2.2.2.2.2.2.2.2.2.1 "new@example.com" rfl⟩

/-- Claim C7: `isExpired` is a pure function returning true exactly when
now > end_date (false at now = end_date); consistently, the frontend's
`getStatusLabel` labels an active subscription "Expired" whenever now is
past the end date. -/
theorem claim_C7_isExpired (s : Subscription) (now : Nat) :
    (isExpired s now = true ↔ now > s.end_date)
    ∧ isExpired s s.end_date = false
    ∧ (∀ e t : Int, e < t → getStatusLabel true e t = "Expired") := by
  refine ⟨by simp [isExpired, gt_iff_lt], by simp [isExpired], ?_⟩
  intro e t het
  have h1 : (0 : Int) ≤ -(e - t) := by omega
  have h2 : (0 : Int) ≤ msPerDay := by norm_num [msPerDay]
  have h3 : daysUntilExpiry e t ≤ 0 := by
    have := Int.fdiv_nonneg h1 h2
    unfold daysUntilExpiry
    omega
  simp [getStatusLabel, h3]

/-- Witness for C7 at the sample subscription and a past end date. -/
theorem claim_C7_isExpired_witness :
    isExpired sampleSubscription 40 = true
    ∧ getStatusLabel true 0 1 = "Expired" :=
  ⟨(claim_C7_isExpired sampleSubscription 40).1.mpr (by decide),
   (claim_C7_isExpired sampleSubscription 40).2.2 0 1 (by decide)⟩

/-- Claim C2: `create` fails with ConflictError exactly when the user
already has an active subscription; on success the new subscription has
start_date = now, end_date = now + plan.duration,
payment_status = completed, active = true, and an Invoice with
status = paid is emitted. -/
theorem claim_C2_createSubscription (st : SysState) (u : Nat) (plan : Plan)
    (pay : Payment) (now : Nat) :
    (createSubscription st u plan pay now = .error .ConflictError ↔
      hasActiveSubscription st u = true)
    ∧ (hasActiveSubscription st u = false →
        ∃ sub inv,
          createSubscription st u plan pay now =
            .ok { st with subs := st.subs ++ [sub],
                          invoices := st.invoices ++ [inv],
                          nextId := st.nextId + 1 }
          ∧ sub.user_id = u
          ∧ sub.start_date = now
          ∧ sub.end_date = now + plan.duration_days
          ∧ sub.payment_status = .completed
          ∧ sub.is_active = true
          ∧ inv.status = .paid) := by
  constructor
  · cases hac : hasActiveSubscription st u <;>
      simp [createSubscription, hac]
  · intro h
    refine ⟨{ id := st.nextId, user_id := u, plan := plan,
              start_date := now, end_date := now + plan.duration_days,
              is_active := true, payment_status := .completed,
              payment_amount := pay.amount, payment_method := pay.method },
            { subscription_id := st.nextId, amount := pay.amount,
              status := .paid, due_date := now, payment_date := some now },
            ?_, rfl, rfl, rfl, rfl, rfl, rfl⟩
    simp [createSubscription, h]

/-- Witness for C2: creating in the empty store succeeds with the stated
fields, and creating again for the same user is a ConflictError. -/
theorem claim_C2_createSubscription_witness :
    (∃ sub inv,
      createSubscription emptyState 7 samplePlan samplePayment 5 =
        .ok { emptyState with subs := emptyState.subs ++ [sub],
                              invoices := emptyState.invoices ++ [inv],
                              nextId := emptyState.nextId + 1 }
      ∧ sub.user_id = 7
      ∧ sub.start_date = 5
      ∧ sub.end_date = 5 + samplePlan.duration_days
      ∧ sub.payment_status = .completed
      ∧ sub.is_active = true
      ∧ inv.status = .paid)
    ∧ createSubscription createdState 7 samplePlan samplePayment 6 =
        .error .ConflictError :=
  ⟨(claim_C2_createSubscription emptyState 7 samplePlan samplePayment 5).2
      (by decide),
   (claim_C2_createSubscription createdState 7 samplePlan samplePayment 6).1.mpr
      (by decide)⟩

/-- Claim C4: `cancel` is idempotent, sets active = false on the
matching subscription, and leaves end_date — and every other field of
every subscription, and the rest of the store — unchanged. -/
theorem claim_C4_cancelSubscription (st : SysState) (sid : Nat) :
    cancelSubscription (cancelSubscription st sid) sid =
      cancelSubscription st sid
    ∧ (cancelSubscription st sid).subs.length = st.subs.length
    ∧ (cancelSubscription st sid).invoices = st.invoices
    ∧ (cancelSubscription st sid).usage = st.usage
    ∧ (cancelSubscription st sid).nextId = st.nextId
    ∧ ∀ i (h : i < st.subs.length)
        (h' : i < (cancelSubscription st sid).subs.length),
        ((cancelSubscription st sid).subs[i]).id = (st.subs[i]).id
        ∧ ((cancelSubscription st sid).subs[i]).user_id = (st.subs[i]).user_id
        ∧ ((cancelSubscription st sid).subs[i]).plan = (st.subs[i]).plan
        ∧ ((cancelSubscription st sid).subs[i]).start_date
            = (st.subs[i]).start_date
        ∧ ((cancelSubscription st sid).subs[i]).end_date
            = (st.subs[i]).end_date
        ∧ ((cancelSubscription st sid).subs[i]).payment_status
            = (st.subs[i]).payment_status
        ∧ ((cancelSubscription st sid).subs[i]).payment_amount
            = (st.subs[i]).payment_amount
        ∧ ((cancelSubscription st sid).subs[i]).payment_method
            = (st.subs[i]).payment_method
        ∧ ((st.subs[i]).id = sid →
            ((cancelSubscription st sid).subs[i]).is_active = false)
        ∧ ((st.subs[i]).id ≠ sid →
            (cancelSubscription st sid).subs[i] = st.subs[i]) := by
  refine ⟨?_, by simp [cancelSubscription], rfl, rfl, rfl, ?_⟩
  · simp only [cancelSubscription, List.map_map]
    congr 1
    apply List.map_congr_left
    intro x _
    by_cases hx : x.id = sid <;> simp [hx]
  · intro i h h'
    have hmap : (cancelSubscription st sid).subs[i] =
        (fun s => if s.id == sid then { s with is_active := false } else s)
          st.subs[i] := by
      simp [cancelSubscription]
    by_cases hx : (st.subs[i]).id = sid <;>
      simp [hmap, hx]

/-- Witness for C4 in the created sample store. -/
theorem claim_C4_cancelSubscription_witness :
    cancelSubscription (cancelSubscription createdState 0) 0 =
      cancelSubscription createdState 0
    ∧ ((createdState.subs[0]).id = 0 →
        ((cancelSubscription createdState 0).subs[0]).is_active = false)
    ∧ ((cancelSubscription createdState 0).subs[0]).end_date
        = (createdState.subs[0]).end_date :=
  ⟨(claim_C4_cancelSubscription createdState 0).1,
   ((claim_C4_cancelSubscription createdState 0).2.2.2.2.2 0 (by decide)
      (by decide)).2.2.2.2.2.2.2.2.1,
   ((claim_C4_cancelSubscription createdState 0).2.2.2.2.2 0 (by decide)
      (by decide)).2.2.2.2.1⟩

/-- The first element returned by `find?` splits the list, and
`updateFirst` rewrites exactly that element. -/
theorem updateFirst_of_find? {α : Type} {p : α → Bool} {f : α → α}
    {l : List α} {a : α} (h : l.find? p = some a) :
    ∃ l₁ l₂, l = l₁ ++ a :: l₂ ∧ (∀ x ∈ l₁, p x = false)
      ∧ updateFirst p f l = l₁ ++ f a :: l₂ := by
  induction l with
  | nil => simp at h
  | cons x xs ih =>
    by_cases hx : p x = true
    · have hax : a = x := by
        rw [List.find?_cons_of_pos _ hx] at h
        exact (Option.some.injEq _ _ ▸ h.symm)
      subst hax
      exact ⟨[], xs, rfl, by simp, by simp [updateFirst, hx]⟩
    · have h' : xs.find? p = some a := by
        rwa [List.find?_cons_of_neg _ hx] at h
      obtain ⟨l₁, l₂, hl, hnot, hupd⟩ := ih h'
      refine ⟨x :: l₁, l₂, by simp [hl], ?_, ?_⟩
      · intro y hy
        rcases List.mem_cons.mp hy with rfl | hy
        · exact Bool.eq_false_iff.mpr hx
        · exact hnot y hy
      · simp [updateFirst, hx, hupd]

/-- Claim C3: `renew` fails with NotFoundError exactly when no active
subscription with the given id exists (the state is untouched since no
new state is produced); on success it rewrites the subscription's
end_date to max(now, end_date) + plan.duration, which is never smaller
than the previous end_date. -/
theorem claim_C3_renewSubscription (st : SysState) (sid : Nat)
    (pay : Payment) (now : Nat) :
    (renewSubscription st sid pay now = .error .NotFoundError ↔
      st.subs.find? (fun s => s.id == sid && s.is_active) = none)
    ∧ (∀ s, st.subs.find? (fun s => s.id == sid && s.is_active) = some s →
        s.end_date ≤ renewedEndDate s now
        ∧ renewedEndDate s now = max now s.end_date + s.plan.duration_days
        ∧ ∃ l₁ l₂ st',
            renewSubscription st sid pay now = .ok st'
            ∧ st.subs = l₁ ++ s :: l₂
            ∧ st'.subs = l₁ ++
                { s with end_date := renewedEndDate s now,
                         payment_status := .completed,
                         payment_amount := pay.amount,
                         payment_method := pay.method } :: l₂) := by
  constructor
  · cases hf : st.subs.find? (fun s => s.id == sid && s.is_active) <;>
      simp [renewSubscription, hf]
  · intro s hs
    refine ⟨le_trans (Nat.le_max_right now s.end_date)
      (Nat.le_add_right _ _), rfl, ?_⟩
    obtain ⟨l₁, l₂, hl, -, hupd⟩ := updateFirst_of_find? (f := fun s =>
      { s with end_date := renewedEndDate s now,
               payment_status := .completed,
               payment_amount := pay.amount,
               payment_method := pay.method }) hs
    have hok : renewSubscription st sid pay now = .ok
        { st with
          subs := updateFirst (fun s => s.id == sid && s.is_active)
            (fun s => { s with end_date := renewedEndDate s now,
                               payment_status := .completed,
                               payment_amount := pay.amount,
                               payment_method := pay.method }) st.subs,
          invoices := st.invoices ++
            [{ subscription_id := sid, amount := pay.amount,
               status := .paid, due_date := now,
               payment_date := some now }] } := by
      simp [renewSubscription, hs]
    exact ⟨l₁, l₂, _, hok, hl, hupd⟩

/-- Witness for C3: renewing the sample subscription at time 40 moves
its end date to 40 + 30 = 70 ≥ 35, and renewing a missing id fails. -/
theorem claim_C3_renewSubscription_witness :
    (sampleSubscription.end_date ≤ renewedEndDate sampleSubscription 40
      ∧ renewedEndDate sampleSubscription 40 =
          max 40 sampleSubscription.end_date
            + sampleSubscription.plan.duration_days
      ∧ ∃ l₁ l₂ st',
          renewSubscription createdState 0 samplePayment 40 = .ok st'
          ∧ createdState.subs = l₁ ++ sampleSubscription :: l₂
          ∧ st'.subs = l₁ ++
              { sampleSubscription with
                  end_date := renewedEndDate sampleSubscription 40,
                  payment_status := .completed,
                  payment_amount := samplePayment.amount,
                  payment_method := samplePayment.method } :: l₂)
    ∧ renewSubscription createdState 99 samplePayment 40 =
        .error .NotFoundError :=
  ⟨(claim_C3_renewSubscription createdState 0 samplePayment 40).2
      sampleSubscription (by decide),
   (claim_C3_renewSubscription createdState 99 samplePayment 40).1.mpr
      (by decide)⟩

/-- Claim C5: with an active subscription present, `recordCallStart`
fails with LimitExceededError exactly when consumed calls or minutes
meet or exceed the plan's corresponding nonzero cap; with
max_calls = 0 the call count can never cause a failure. -/
theorem claim_C5_recordCallStart (st : SysState) (u : Nat)
    (meta : CallMeta) (now : Nat) (s : Subscription)
    (hs : findActiveSubscription st u = some s) :
    (recordCallStart st u meta now = .error .LimitExceededError ↔
      (s.plan.max_calls ≠ 0 ∧ s.plan.max_calls ≤ calls_used st s.id)
      ∨ (s.plan.max_minutes ≠ 0
          ∧ s.plan.max_minutes ≤ minutes_used st s.id))
    ∧ (s.plan.max_calls = 0 →
        (recordCallStart st u meta now = .error .LimitExceededError ↔
          s.plan.max_minutes ≠ 0
          ∧ s.plan.max_minutes ≤ minutes_used st s.id)) := by
  have key : recordCallStart st u meta now = .error .LimitExceededError ↔
      (overCap (calls_used st s.id) s.plan.max_calls
        || overCap (minutes_used st s.id) s.plan.max_minutes) = true := by
    cases hb : (overCap (calls_used st s.id) s.plan.max_calls
        || overCap (minutes_used st s.id) s.plan.max_minutes) <;>
      simp [recordCallStart, hs, hb]
  have hform : ∀ used cap : Nat,
      overCap used cap = true ↔ cap ≠ 0 ∧ cap ≤ used := by
    intro used cap
    simp [overCap, bne_iff_ne]
  constructor
  · rw [key]
    simp [Bool.or_eq_true, hform]
  · intro h0
    rw [key]
    simp [Bool.or_eq_true, hform, h0]

/-- Witness for C5: in the capped store (1 call allowed, 1 call used)
the next call start is a LimitExceededError. -/
theorem claim_C5_recordCallStart_witness :
    recordCallStart cappedState 7 sampleMeta 3 =
      .error .LimitExceededError :=
  (claim_C5_recordCallStart cappedState 7 sampleMeta 3 cappedSubscription
    (by decide)).1.mpr (Or.inl ⟨by decide, by decide⟩)

/-- Claim C6: the only permitted UsageRecord status changes are
initiated → connected, initiated → failed, connected → completed and
connected → failed; completed and failed are terminal; and an update
requesting any other change fails with InvalidStateTransitionError. -/
theorem claim_C6_usageTransitions :
    (∀ a b : CallStatus, allowedTransition a b = true ↔
      (a = .initiated ∧ b = .connected)
      ∨ (a = .initiated ∧ b = .failed)
      ∨ (a = .connected ∧ b = .completed)
      ∨ (a = .connected ∧ b = .failed))
    ∧ (∀ b : CallStatus, allowedTransition .completed b = false
        ∧ allowedTransition .failed b = false)
    ∧ (∀ (st : SysState) (callId : String) (t : Nat) (r : UsageRecord)
        (b : CallStatus),
        st.usage.find? (fun x => x.call_id == callId) = some r →
        allowedTransition r.status b = false →
        updateCallStatus st callId t b =
          .error .InvalidStateTransitionError) := by
  refine ⟨?_, ?_, ?_⟩
  · intro a b; cases a <;> cases b <;> simp [allowedTransition]
  · intro b; cases b <;> simp [allowedTransition]
  · intro st callId t r b hfind hna
    simp [updateCallStatus, hfind, hna]

/-- Witness for C6: a completed call cannot move back to connected. -/
theorem claim_C6_usageTransitions_witness :
    updateCallStatus closedState "c2" 20 .connected =
      .error .InvalidStateTransitionError :=
  claim_C6_usageTransitions.2.2 closedState "c2" 20 closedRecord .connected
    (by decide) (by decide)

/-- Claim C8: `usagePercentage` is the larger of the two consumption
ratios as a percentage; a ratio whose cap is 0 is ignored, and both caps
0 gives 0. -/
theorem claim_C8_usagePercentage (st : SysState) (s : Subscription) :
    (s.plan.max_calls = 0 → s.plan.max_minutes = 0 →
      usagePercentage st s = 0)
    ∧ (s.plan.max_calls ≠ 0 → s.plan.max_minutes ≠ 0 →
        usagePercentage st s =
          max ((calls_used st s.id : ℚ) * 100 / (s.plan.max_calls : ℚ))
            ((minutes_used st s.id : ℚ) * 100 / (s.plan.max_minutes : ℚ)))
    ∧ (s.plan.max_calls = 0 → s.plan.max_minutes ≠ 0 →
        usagePercentage st s =
          (minutes_used st s.id : ℚ) * 100 / (s.plan.max_minutes : ℚ))
    ∧ (s.plan.max_minutes = 0 → s.plan.max_calls ≠ 0 →
        usagePercentage st s =
          (calls_used st s.id : ℚ) * 100 / (s.plan.max_calls : ℚ)) := by
  have hc : (0 : ℚ) ≤ (calls_used st s.id : ℚ) * 100 /
      (s.plan.max_calls : ℚ) := by positivity
  have hm : (0 : ℚ) ≤ (minutes_used st s.id : ℚ) * 100 /
      (s.plan.max_minutes : ℚ) := by positivity
  refine ⟨?_, ?_, ?_, ?_⟩
  · intro h1 h2; simp [usagePercentage, h1, h2]
  · intro h1 h2; simp [usagePercentage, h1, h2]
  · intro h1 h2
    simp only [usagePercentage, h1, if_pos rfl, if_neg h2]
    exact max_eq_right hm
  · intro h1 h2
    simp only [usagePercentage, h1, if_pos rfl, if_neg h2]
    exact max_eq_left hc

/-- Witness for C8: in the capped store the call cap is 1 with 1 call
used while minutes are unlimited, so usage is 100%. -/
theorem claim_C8_usagePercentage_witness :
    usagePercentage cappedState cappedSubscription =
      (calls_used cappedState cappedSubscription.id : ℚ) * 100 /
        (cappedSubscription.plan.max_calls : ℚ) :=
  (claim_C8_usagePercentage cappedState cappedSubscription).2.2.2
    (by decide) (by decide)

/-- `updateFirst` with a count-preserving rewrite leaves `countP`
unchanged. -/
theorem countP_updateFirst_of_pres {α : Type} (p q : α → Bool)
    (f : α → α) (hf : ∀ x, p (f x) = p x) (l : List α) :
    (updateFirst q f l).countP p = l.countP p := by
  induction l with
  | nil => rfl
  | cons x xs ih =>
    by_cases hx : q x = true
    · simp [updateFirst, hx, List.countP_cons, hf]
    · simp [updateFirst, hx, List.countP_cons, ih]

/-- Mapping a function that never turns the predicate on cannot raise
`countP`. -/
theorem countP_map_le_of_pred {α : Type} (p : α → Bool) (g : α → α)
    (hg : ∀ x, p (g x) = true → p x = true) (l : List α) :
    (l.map g).countP p ≤ l.countP p := by
  induction l with
  | nil => simp
  | cons x xs ih =>
    simp only [List.map_cons, List.countP_cons]
    by_cases hx : p (g x) = true
    · rw [if_pos hx, if_pos (hg x hx)]
      omega
    · rw [if_neg hx]
      split_ifs <;> omega

/-- Claim C1: every reachable store has at most one active subscription
per user; each lifecycle and ledger operation preserves the
invariant. -/
theorem claim_C1_oneActivePerUser (st : SysState) (h : Reachable st) :
    UniqueActive st := by
  induction h with
  | init =>
    intro u
    simp [emptyState]
  | create u plan pay now hst hok ih =>
    rename_i st st'
    intro v
    cases hac : hasActiveSubscription st u with
    | true => simp [createSubscription, hac] at hok
    | false =>
      simp [createSubscription, hac] at hok
      subst hok
      show ((st.subs ++ [_]).countP _) ≤ 1
      rw [List.countP_append]
      by_cases hv : u = v
      · subst hv
        have h0 : st.subs.countP
            (fun s => s.user_id == u && s.is_active) = 0 := by
          rw [List.countP_eq_zero]
          intro a ha hpa
          have : hasActiveSubscription st u = true := by
            unfold hasActiveSubscription
            rw [List.any_eq_true]
            exact ⟨a, ha, hpa⟩
          rw [hac] at this
          exact Bool.false_ne_true this
        simp [h0, List.countP_cons]
      · have : ((u == v) && true) = false := by
          simp [hv]
        simp only [List.countP_cons, List.countP_nil]
        simpa [this] using ih v
  | renew sid pay now hst hok ih =>
    rename_i st st'
    cases hf : st.subs.find? (fun s => s.id == sid && s.is_active) with
    | none => simp [renewSubscription, hf] at hok
    | some s0 =>
      simp [renewSubscription, hf] at hok
      subst hok
      intro v
      have hcnt := countP_updateFirst_of_pres
        (fun s : Subscription => s.user_id == v && s.is_active)
        (fun s : Subscription => s.id == sid && s.is_active)
        (fun s : Subscription =>
          { s with end_date := renewedEndDate s now,
                   payment_status := .completed,
                   payment_amount := pay.amount,
                   payment_method := pay.method })
        (fun x => rfl) st.subs
      show ((updateFirst _ _ st.subs).countP _) ≤ 1
      rw [hcnt]
      exact ih v
  | cancel sid hst ih =>
    rename_i st
    intro v
    show ((st.subs.map _).countP _) ≤ 1
    refine le_trans (countP_map_le_of_pred _ _ ?_ st.subs) (ih v)
    intro x hx
    by_cases hid : x.id = sid
    · simp [hid] at hx
    · simpa [hid] using hx
  | callStart u meta now hst hok ih =>
    rename_i st st'
    cases hf : findActiveSubscription st u with
    | none =>
      simp [recordCallStart, hf] at hok
      subst hok
      exact ih
    | some s =>
      cases hb : (overCap (calls_used st s.id) s.plan.max_calls
          || overCap (minutes_used st s.id) s.plan.max_minutes) with
      | true => simp [recordCallStart, hf, hb] at hok
      | false =>
        simp [recordCallStart, hf, hb] at hok
        subst hok
        exact ih
  | callStatus cid t b hst hok ih =>
    rename_i st st'
    cases hf : st.usage.find? (fun r => r.call_id == cid) with
    | none => simp [updateCallStatus, hf] at hok
    | some r =>
      cases hb : allowedTransition r.status b with
      | false => simp [updateCallStatus, hf, hb] at hok
      | true =>
        simp [updateCallStatus, hf, hb] at hok
        subst hok
        exact ih

/-- Witness for C1: the store obtained by one successful creation
satisfies the invariant. -/
theorem claim_C1_oneActivePerUser_witness : UniqueActive createdState :=
  claim_C1_oneActivePerUser createdState
    (Reachable.create 7 samplePlan samplePayment 5 Reachable.init rfl)
